import Mathlib

/-!
Verification of the spoolman2slicer synchronization core (`spoolman_core.py`,
class `SpoolmanProcessor`) against its natural-language specification.

Shallow embedding notes:
* Python dicts that act as entity records become Lean structures; optional JSON
  keys become `Option` fields. Python dicts that act as maps (the caches)
  become association lists preserving insertion order: inserting an existing
  key replaces the value in place, inserting a new key appends — exactly a
  CPython dict's ordering behaviour.
* Jinja template rendering is an external collaborator; it is modelled as an
  environment mapping a template name to an optional pure rendering function
  (`none` models `TemplateNotFound`).
* The filesystem is part of the state (`files`, path → content).  Two ghost
  logs (`writeLog`, `deleteLog`) record every file write / file removal so
  "performs no write" claims can be stated.
* A raised exception aborts processing; fallible operations return
  `Option ProcState` (`none` = exception propagated to the caller).  The model
  does not track cache state after an exception, which no claim needs.
* `sm2s` wall-clock fields (`now`, `now_int`) as well as the run-constant
  fields (`name`, `version`, `spoolman_url`) are omitted from the modelled
  `sm2s` record: rendering is an abstract function of the record and those
  fields are constant within the single processing step a claim examines.
* Spool/Filament/Vendor payloads in the claims always carry an `id`, so `id`
  is a required field; the source guards `if "id" in spool` are then always
  true.  Python truthiness of an id (`0` is falsy) is kept as `id ≠ 0`.
-/

/-- Association-list lookup (CPython `dict.get`). -/
def alookup {β : Type} : List (String × β) → String → Option β
  | [], _ => none
  | (k, v) :: rest, key => if k = key then some v else alookup rest key

/-- Association-list lookup with `Nat` keys (entity caches keyed by id). -/
def nlookup {β : Type} : List (Nat × β) → Nat → Option β
  | [], _ => none
  | (k, v) :: rest, key => if k = key then some v else nlookup rest key

/-- Association-list store (CPython `d[k] = v`): replace in place, else append. -/
def ainsert {β : Type} : List (String × β) → String → β → List (String × β)
  | [], key, v => [(key, v)]
  | (k, w) :: rest, key, v =>
    if k = key then (k, v) :: rest else (k, w) :: ainsert rest key v

/-- Association-list store with `Nat` keys. -/
def ninsert {β : Type} : List (Nat × β) → Nat → β → List (Nat × β)
  | [], key, v => [(key, v)]
  | (k, w) :: rest, key, v =>
    if k = key then (k, v) :: rest else (k, w) :: ninsert rest key v

/-- Association-list removal (CPython `del d[k]`). -/
def nerase {β : Type} : List (Nat × β) → Nat → List (Nat × β)
  | [], _ => []
  | (k, w) :: rest, key => if k = key then rest else (k, w) :: nerase rest key

/-- Python `str.strip()` whitespace test (the characters occurring in
rendered template output). -/
def isWS (c : Char) : Bool := c = ' ' || c = '\t' || c = '\n' || c = '\r'

/-- Python `str.strip()`: drop leading and trailing whitespace. -/
def strStrip (s : String) : String :=
  ⟨((s.data.dropWhile isWS).reverse.dropWhile isWS).reverse⟩

/-- Python string `<`: lexicographic comparison by code point. -/
def charListLt : List Char → List Char → Bool
  | [], [] => false
  | [], _ :: _ => true
  | _ :: _, [] => false
  | a :: as, b :: bs =>
    if a.toNat < b.toNat then true
    else if b.toNat < a.toNat then false
    else charListLt as bs

/-- Python string `<` on `String`. -/
def strLtB (a b : String) : Bool := charListLt a.data b.data

/-- Helper for Python `str.split(",")`. -/
def splitCommaAux : List Char → List Char → List String
  | [], acc => [⟨acc.reverse⟩]
  | c :: rest, acc =>
    if c = ',' then ⟨acc.reverse⟩ :: splitCommaAux rest []
    else splitCommaAux rest (c :: acc)

/-- Python `str.split(",")` (`"".split(",") == [""]`). -/
def pySplitComma (s : String) : List String := splitCommaAux s.data []

/-- A Spoolman vendor record. -/
structure Vendor where
  id : Nat
  name : String
deriving DecidableEq, Repr

/-- A Spoolman filament record (entity seen by `SpoolmanProcessor`). -/
structure Filament where
  id : Nat
  material : Option String
  vendor_id : Option Nat
  vendor : Option Vendor
deriving DecidableEq, Repr

/-- A Spoolman spool record.  `spool_weight` is a JSON number, modelled as `ℚ`
(no numeric error is performed on it, only ordering). -/
structure Spool where
  id : Nat
  filament_id : Option Nat
  filament : Option Filament
  archived : Option Bool
  spool_weight : Option ℚ
  last_used : Option String
deriving DecidableEq, Repr

/-- `spool.get("archived", False)` -/
def Spool.isArchived (s : Spool) : Bool := s.archived.getD false

/-- The modelled `sm2s` sub-record added by `add_sm2s_to_filament`. -/
structure Sm2s where
  slicer_suffix : String
  variant : String
deriving DecidableEq, Repr

/-- The filament dict as passed to templates after `add_sm2s_to_filament`:
the base filament entity plus the `sm2s` record plus the `spool` field
(`none` models the empty dict Python stores when no spool is given). -/
structure TFilament where
  base : Filament
  sm2s : Sm2s
  spool : Option Spool
deriving DecidableEq, Repr

/-- `add_sm2s_to_filament`: attaches `sm2s` (with the given suffix and the
stripped variant) and the optional spool to the filament record. -/
def add_sm2s_to_filament (filament : Filament) (suffix variant : String)
    (spool : Option Spool) : TFilament :=
  { base := filament, sm2s := { slicer_suffix := suffix, variant := strStrip variant },
    spool := spool }

/-- `SpoolmanConfig` (the fields the core logic reads). -/
structure SpoolmanConfig where
  output_dir : String
  slicer : String
  spoolman_url : String
  template_path : String
  verbose : Bool := false
  updates : Bool := false
  variants : String := ""
  delete_all : Bool := false
  create_per_spool : Option String := none
deriving DecidableEq, Repr

/-- `SpoolmanConfig.__post_init__` validation, as a Boolean predicate:
the slicer must be one of the four supported names, and a *truthy*
`create_per_spool` must be one of the three modes (Python truthiness:
`None` and `""` are falsy and skip the second check). -/
def SpoolmanConfig.validates (cfg : SpoolmanConfig) : Bool :=
  decide (cfg.slicer = "orcaslicer" ∨ cfg.slicer = "prusaslicer" ∨
    cfg.slicer = "slic3r" ∨ cfg.slicer = "superslicer")
  && (match cfg.create_per_spool with
     | none => true
     | some m => decide (m = "" ∨ m = "all" ∨ m = "least-left" ∨ m = "most-recent"))

/-- Python truthiness of the `create_per_spool` option (`None`/`""` falsy). -/
def cpsTruthy : Option String → Bool
  | none => false
  | some m => m ≠ ""

/-- `get_config_suffix`: the slicer's config file suffixes; `none` models the
`ValueError` raised for an unsupported slicer. -/
def get_config_suffix (cfg : SpoolmanConfig) : Option (List String) :=
  if cfg.slicer = "slic3r" ∨ cfg.slicer = "superslicer" ∨ cfg.slicer = "prusaslicer" then
    some ["ini"]
  else if cfg.slicer = "orcaslicer" then some ["json", "info"]
  else none

/-- The Jinja template environment: template name → rendering function, or
`none` for `TemplateNotFound`. -/
structure Templates where
  get_template : String → Option (TFilament → String)

/-- `str.removesuffix("/")` applied to the output dir. -/
def stripSlash (s : String) : String :=
  match s.data.reverse with
  | '/' :: rest => ⟨rest.reverse⟩
  | _ => s

/-- `get_filament_filename`: renders `filename_for_spool.template` in
per-spool-all mode, else `filename.template`, strips the result and prefixes
the output dir.  `none` models `TemplateNotFound` propagating. -/
def get_filament_filename (cfg : SpoolmanConfig) (tmpl : Templates)
    (f : TFilament) : Option String :=
  let tname := if cfg.create_per_spool = some "all" then
      "filename_for_spool.template" else "filename.template"
  match tmpl.get_template tname with
  | none => none
  | some t => some (stripSlash cfg.output_dir ++ "/" ++ strStrip (t f))

/-- Truthiness of `filament.get("spool", {}).get("id")`: a spool field must be
present and carry a nonzero id. -/
def spoolIdTruthy : Option Spool → Bool
  | none => false
  | some sp => sp.id ≠ 0

/-- `get_filename_cache_key`. -/
def get_filename_cache_key (cfg : SpoolmanConfig) (f : TFilament) : String :=
  if cfg.create_per_spool = some "all" ∧ spoolIdTruthy f.spool = true then
    match f.spool with
    | some sp => "spool-" ++ toString sp.id ++ "-" ++ f.sm2s.slicer_suffix
    | none => toString f.base.id ++ "-" ++ f.sm2s.slicer_suffix
  else toString f.base.id ++ "-" ++ f.sm2s.slicer_suffix

/-- `get_content_cache_key`. -/
def get_content_cache_key (cfg : SpoolmanConfig) (f : TFilament) : String :=
  if cfg.create_per_spool = some "all" ∧ spoolIdTruthy f.spool = true then
    match f.spool with
    | some sp => "spool-" ++ toString sp.id
    | none => toString f.base.id
  else toString f.base.id

/-- The mutable state of one `SpoolmanProcessor` instance plus the modelled
filesystem and two ghost logs of performed file operations. -/
structure ProcState where
  filament_id_to_filename : List (String × String)
  filament_id_to_content : List (String × String)
  filename_usage : List (String × Int)
  vendors_cache : List (Nat × Vendor)
  filaments_cache : List (Nat × Filament)
  spools_cache : List (Nat × Spool)
  files : List (String × String)
  writeLog : List String
  deleteLog : List String
deriving DecidableEq, Repr

/-- The empty initial state. -/
def ProcState.initial : ProcState :=
  { filament_id_to_filename := [], filament_id_to_content := [],
    filename_usage := [], vendors_cache := [], filaments_cache := [],
    spools_cache := [], files := [], writeLog := [], deleteLog := [] }

/-- `get_cached_filename_from_filaments_id`. -/
def get_cached_filename_from_filaments_id (cfg : SpoolmanConfig)
    (s : ProcState) (f : TFilament) : Option String :=
  alookup s.filament_id_to_filename (get_filename_cache_key cfg f)

/-- `os.remove`: `none` models `FileNotFoundError` for a missing path.
The removal is appended to the ghost `deleteLog`. -/
def os_remove (path : String) (s : ProcState) : Option ProcState :=
  match alookup s.files path with
  | none => none
  | some _ => some { s with files := s.files.filter (fun p => p.1 ≠ path),
                            deleteLog := path :: s.deleteLog }

/-- Modelled from the spec: `file_utils.atomic_write` (the module is not under
`src/`) — a durable atomic replace: after the call the path maps to the new
text and no partial content is ever observable.  The write is appended to the
ghost `writeLog`. -/
def atomic_write (path text : String) (s : ProcState) : ProcState :=
  { s with files := ainsert s.files path text, writeLog := path :: s.writeLog }

/-- `delete_filament`: release the subject's output record.  Decrements the
usage count of the cached filename; at zero (or below) the file is removed
unless `is_update` finds the freshly computed filename unchanged. -/
def delete_filament (cfg : SpoolmanConfig) (tmpl : Templates) (f : TFilament)
    (is_update : Bool) (s : ProcState) : Option ProcState :=
  match get_cached_filename_from_filaments_id cfg s f with
  | none => some s
  | some filename =>
    match alookup s.filename_usage filename with
    | none => some s
    | some n =>
      let s' := { s with filename_usage := ainsert s.filename_usage filename (n - 1) }
      if n - 1 > 0 then some s'
      else if is_update then
        match get_filament_filename cfg tmpl f with
        | none => none
        | some new_filename =>
          if filename = new_filename then some s' else os_remove filename s'
      else os_remove filename s'

/-- The content-template choice of `write_filament`: a material-specific
template when the record has a material, falling back silently to the
suffix-specific default template when that one is not found. -/
def pick_content_template (tmpl : Templates) (f : TFilament) :
    Option (TFilament → String) :=
  match f.base.material with
  | some m =>
    match tmpl.get_template (m ++ "." ++ f.sm2s.slicer_suffix ++ ".template") with
    | some t => some t
    | none => tmpl.get_template ("default." ++ f.sm2s.slicer_suffix ++ ".template")
  | none => tmpl.get_template ("default." ++ f.sm2s.slicer_suffix ++ ".template")

/-- The unconditional usage-count bump at the top of `write_filament`. -/
def usage_incr (usage : List (String × Int)) (filename : String) :
    List (String × Int) :=
  match alookup usage filename with
  | some n => ainsert usage filename (n + 1)
  | none => ainsert usage filename 1

/-- `write_filament`: commit the subject's output record.  Increments the
filename's usage count, stores the filename in the cache, then renders the
body; if both the cached body and the cached filename are unchanged the write
is skipped, otherwise the file is atomically written and the content cache
updated. -/
def write_filament (cfg : SpoolmanConfig) (tmpl : Templates) (f : TFilament)
    (s : ProcState) : Option ProcState :=
  match get_filament_filename cfg tmpl f with
  | none => none
  | some filename =>
    let content_cache_key := get_content_cache_key cfg f
    let old_filename := get_cached_filename_from_filaments_id cfg s f
    let s' := { s with
      filename_usage := usage_incr s.filename_usage filename,
      filament_id_to_filename :=
        ainsert s.filament_id_to_filename (get_filename_cache_key cfg f) filename }
    match pick_content_template tmpl f with
    | none => none
    | some t =>
      let filament_text := t f
      let old_filament_text := alookup s'.filament_id_to_content content_cache_key
      if old_filament_text = some filament_text ∧ old_filename = some filename then
        some s'
      else
        some { atomic_write filename filament_text s' with
               filament_id_to_content :=
                 ainsert s'.filament_id_to_content content_cache_key filament_text }

/-- Strict comparison of `spool_weight` values where an absent weight is
`float("inf")`: `none` compares greater than every present weight and equal
to itself. -/
def wLtB : Option ℚ → Option ℚ → Bool
  | some a, some b => decide (a < b)
  | some _, none => true
  | none, _ => false

/-- The strict lexicographic order on the key
`(s.get("spool_weight", float("inf")), s["id"])` used by
`select_spool_by_least_left`. -/
def llLtB (a b : Spool) : Bool :=
  wLtB a.spool_weight b.spool_weight ||
    (a.spool_weight = b.spool_weight && decide (a.id < b.id))

/-- The left fold performed by Python `min(spool_list, key=...)`: the running
best is replaced only by a strictly smaller key, so the first minimum wins. -/
def select_ll_go (best : Spool) : List Spool → Spool
  | [] => best
  | sp :: rest => select_ll_go (if llLtB sp best then sp else best) rest

/-- `select_spool_by_least_left`: spool with lowest `spool_weight` (absent =
+infinity), tie-break by lowest id.  `none` models the `ValueError` Python's
`min` raises on an empty list. -/
def select_spool_by_least_left : List Spool → Option Spool
  | [] => none
  | a :: rest => some (select_ll_go a rest)

/-- The key function of `select_spool_by_most_recent`: an absent or empty
`last_used` maps to `("", id)`, a present one to `(last_used, -id)`. -/
def mostRecentKey (sp : Spool) : String × Int :=
  match sp.last_used with
  | none => ("", (sp.id : Int))
  | some lu => if lu = "" then ("", (sp.id : Int)) else (lu, -(sp.id : Int))

/-- Strict lexicographic `>` on the `(String, Int)` keys (Python tuple
comparison; string comparison is code-point lexicographic in both). -/
def mrGtB (a b : String × Int) : Bool :=
  strLtB b.1 a.1 || (a.1 = b.1 && decide (b.2 < a.2))

/-- The left fold performed by Python `max(spool_list, key=...)`: the running
best is replaced only by a strictly greater key, so the first maximum wins. -/
def select_mr_go (best : Spool) : List Spool → Spool
  | [] => best
  | sp :: rest =>
    select_mr_go (if mrGtB (mostRecentKey sp) (mostRecentKey best) then sp else best) rest

/-- `select_spool_by_most_recent`: spool with highest `last_used` key.
`none` models the `ValueError` Python's `max` raises on an empty list. -/
def select_spool_by_most_recent : List Spool → Option Spool
  | [] => none
  | a :: rest => some (select_mr_go a rest)

/-- A fallible left fold: run the body on each element in order, stopping at
the first raised exception (Python loop semantics). -/
def optFold {σ α : Type} (f : α → σ → Option σ) : List α → σ → Option σ
  | [], s => some s
  | a :: rest, s =>
    match f a s with
    | none => none
    | some s' => optFold f rest s'

/-- Iterate a fallible body over `get_config_suffix() × variants.split(",")`
in source order (outer loop suffixes, inner loop variants). -/
def foldSV (suffixes variants : List String)
    (body : String → String → ProcState → Option ProcState)
    (s : ProcState) : Option ProcState :=
  optFold (fun suffix s =>
    optFold (fun variant s' => body suffix variant s') variants s) suffixes s

/-- `spool.get("filament", {}).get("id") == filament_id` for a `Nat` id
(an absent filament yields `None`, never equal to an int id). -/
def spoolHasFilamentId (sp : Spool) (fid : Nat) : Bool :=
  match sp.filament with
  | some f => f.id = fid
  | none => false

/-- The repeated resolution snippet: if the spool has no embedded filament but
a truthy `filament_id` present in the filaments cache, embed that filament. -/
def resolve_spool_filament (filaments : List (Nat × Filament)) (spool : Spool) :
    Spool :=
  match spool.filament with
  | some _ => spool
  | none =>
    match spool.filament_id with
    | none => spool
    | some fid =>
      if fid ≠ 0 then
        match nlookup filaments fid with
        | some f => { spool with filament := some f }
        | none => spool
      else spool

/-- `process_filaments_default`: collect the ids of filaments having at least
one non-archived spool with an embedded filament, then write one record per
(cached filament, suffix, variant).  The Python `set` iteration order is
unspecified; it is modelled as first-occurrence order, which no claim
distinguishes. -/
def process_filaments_default (cfg : SpoolmanConfig) (tmpl : Templates)
    (spools : List Spool) (s : ProcState) : Option ProcState :=
  let ids := (spools.filterMap (fun sp =>
    if sp.isArchived then none else sp.filament.map (·.id))).dedup
  optFold (fun fid s =>
    match nlookup s.filaments_cache fid with
    | none => some s
    | some filament =>
      match get_config_suffix cfg with
      | none => none
      | some suffixes =>
        foldSV suffixes (pySplitComma cfg.variants) (fun suffix variant s =>
          write_filament cfg tmpl (add_sm2s_to_filament filament suffix variant none) s) s) ids s

/-- `process_filaments_per_spool_all`: one record per non-archived spool;
a spool without an embedded filament raises (`spool["filament"]`). -/
def process_filaments_per_spool_all (cfg : SpoolmanConfig) (tmpl : Templates)
    (spools : List Spool) (s : ProcState) : Option ProcState :=
  optFold (fun sp s =>
    if sp.isArchived then some s
    else
      match sp.filament with
      | none => none
      | some filament =>
        match get_config_suffix cfg with
        | none => none
        | some suffixes =>
          foldSV suffixes (pySplitComma cfg.variants) (fun suffix variant s =>
            write_filament cfg tmpl (add_sm2s_to_filament filament suffix variant (some sp)) s) s) spools s

/-- Group non-archived spools by embedded-filament id, preserving first-seen
group order and in-group order (a CPython dict of lists); a non-archived spool
without an embedded filament raises. -/
def groupSpoolsByFilament (spools : List Spool) :
    Option (List (Nat × List Spool)) :=
  optFold (fun sp acc =>
    if sp.isArchived then some acc
    else
      match sp.filament with
      | none => none
      | some f =>
        match nlookup acc f.id with
        | some l => some (ninsert acc f.id (l ++ [sp]))
        | none => some (acc ++ [(f.id, [sp])])) spools []

/-- `process_filaments_per_spool_selected`: group spools by filament, select
one spool per group with the given selector, and write its record. -/
def process_filaments_per_spool_selected (cfg : SpoolmanConfig) (tmpl : Templates)
    (selector : List Spool → Option Spool)
    (spools : List Spool) (s : ProcState) : Option ProcState :=
  match groupSpoolsByFilament spools with
  | none => none
  | some groups =>
    optFold (fun group s =>
      match selector group.2 with
      | none => none
      | some selected =>
        match selected.filament with
        | none => none
        | some filament =>
          match get_config_suffix cfg with
          | none => none
          | some suffixes =>
            foldSV suffixes (pySplitComma cfg.variants) (fun suffix variant s =>
              write_filament cfg tmpl
                (add_sm2s_to_filament filament suffix variant (some selected)) s) s) groups s

/-- `load_and_update_all_filaments` after `load_and_cache_data`: dispatch the
cached spool list to the mode-specific snapshot processor. -/
def update_all_filaments (cfg : SpoolmanConfig) (tmpl : Templates)
    (s : ProcState) : Option ProcState :=
  let spools := s.spools_cache.map Prod.snd
  if cfg.create_per_spool = some "all" then
    process_filaments_per_spool_all cfg tmpl spools s
  else if cfg.create_per_spool = some "least-left" then
    process_filaments_per_spool_selected cfg tmpl select_spool_by_least_left spools s
  else if cfg.create_per_spool = some "most-recent" then
    process_filaments_per_spool_selected cfg tmpl select_spool_by_most_recent spools s
  else process_filaments_default cfg tmpl spools s

/-- `handle_spool_update`: mode-dependent spool reconciliation (the shared
logic of all spool-event branches and cascades). -/
def handle_spool_update (cfg : SpoolmanConfig) (tmpl : Templates)
    (spool0 : Spool) (s : ProcState) : Option ProcState :=
  let spool := resolve_spool_filament s.filaments_cache spool0
  match spool.filament with
  | none => some s
  | some filament =>
    if cfg.create_per_spool = some "all" then
      if spool.isArchived then some s
      else
        match get_config_suffix cfg with
        | none => none
        | some suffixes =>
          foldSV suffixes (pySplitComma cfg.variants) (fun suffix variant s =>
            let fc := add_sm2s_to_filament filament suffix variant (some spool)
            (delete_filament cfg tmpl fc true s).bind (write_filament cfg tmpl fc)) s
    else if cfg.create_per_spool = some "least-left" ∨
            cfg.create_per_spool = some "most-recent" then
      let filament_spools := (s.spools_cache.map Prod.snd).filter (fun sp =>
        spoolHasFilamentId sp filament.id && !sp.isArchived)
      if filament_spools = [] then
        match get_config_suffix cfg with
        | none => none
        | some suffixes =>
          foldSV suffixes (pySplitComma cfg.variants) (fun suffix variant s =>
            delete_filament cfg tmpl
              (add_sm2s_to_filament filament suffix variant none) false s) s
      else
        let selected? := if cfg.create_per_spool = some "least-left" then
            select_spool_by_least_left filament_spools
          else select_spool_by_most_recent filament_spools
        match selected? with
        | none => none
        | some selected =>
          match selected.filament with
          | none => none
          | some selFilament =>
            match get_config_suffix cfg with
            | none => none
            | some suffixes =>
              foldSV suffixes (pySplitComma cfg.variants) (fun suffix variant s =>
                let fc := add_sm2s_to_filament selFilament suffix variant (some selected)
                (delete_filament cfg tmpl fc true s).bind (write_filament cfg tmpl fc)) s
    else
      let has_active_spools := s.spools_cache = [] ∨
        ((s.spools_cache.map Prod.snd).any (fun sp =>
          spoolHasFilamentId sp filament.id && !sp.isArchived)) = true
      if has_active_spools then
        match get_config_suffix cfg with
        | none => none
        | some suffixes =>
          foldSV suffixes (pySplitComma cfg.variants) (fun suffix variant s =>
            let fc := add_sm2s_to_filament filament suffix variant none
            (delete_filament cfg tmpl fc true s).bind (write_filament cfg tmpl fc)) s
      else
        match get_config_suffix cfg with
        | none => none
        | some suffixes =>
          foldSV suffixes (pySplitComma cfg.variants) (fun suffix variant s =>
            delete_filament cfg tmpl
              (add_sm2s_to_filament filament suffix variant none) false s) s

/-- `_update_files_for_vendor_change`: re-embed the new vendor in every
matching cached filament, push the filament into every matching cached spool,
and reconcile each such non-archived spool.  The iteration runs over a
snapshot of the keys, matching CPython value-mutation during `values()`
iteration (the reconciliation itself never touches the entity caches). -/
def update_files_for_vendor_change (cfg : SpoolmanConfig) (tmpl : Templates)
    (vendor : Vendor) (s : ProcState) : Option ProcState :=
  optFold (fun fid s =>
    match nlookup s.filaments_cache fid with
    | none => some s
    | some filament =>
      if (match filament.vendor with
          | some v => decide (v.id = vendor.id)
          | none => false) = true then
        let filament' := { filament with vendor := some vendor }
        let s := { s with filaments_cache := ninsert s.filaments_cache fid filament' }
        optFold (fun sid s =>
          match nlookup s.spools_cache sid with
          | none => some s
          | some sp =>
            if spoolHasFilamentId sp filament'.id then
              let sp' := { sp with filament := some filament' }
              let s := { s with spools_cache := ninsert s.spools_cache sid sp' }
              if sp'.isArchived then some s else handle_spool_update cfg tmpl sp' s
            else some s) (s.spools_cache.map Prod.fst) s
      else some s) (s.filaments_cache.map Prod.fst) s

/-- `handle_vendor_update_msg` for a message `{type, payload}`. -/
def handle_vendor_update_msg (cfg : SpoolmanConfig) (tmpl : Templates)
    (mtype : String) (vendor : Vendor) (s : ProcState) : Option ProcState :=
  if mtype = "added" then
    some { s with vendors_cache := ninsert s.vendors_cache vendor.id vendor }
  else if mtype = "updated" then
    update_files_for_vendor_change cfg tmpl vendor
      { s with vendors_cache := ninsert s.vendors_cache vendor.id vendor }
  else if mtype = "deleted" then
    some (if (nlookup s.vendors_cache vendor.id).isSome then
      { s with vendors_cache := nerase s.vendors_cache vendor.id } else s)
  else some s

/-- `handle_spool_update_msg` for a message `{type, payload}`. -/
def handle_spool_update_msg (cfg : SpoolmanConfig) (tmpl : Templates)
    (mtype : String) (payload : Spool) (s : ProcState) : Option ProcState :=
  if mtype = "added" then
    let spool := resolve_spool_filament s.filaments_cache payload
    let s := { s with spools_cache := ninsert s.spools_cache spool.id spool }
    handle_spool_update cfg tmpl spool s
  else if mtype = "updated" then
    let old_spool := if payload.id ≠ 0 then nlookup s.spools_cache payload.id else none
    let old_filament := old_spool.bind (·.filament)
    let spool := resolve_spool_filament s.filaments_cache payload
    let s := { s with spools_cache := ninsert s.spools_cache spool.id spool }
    let reparent : Option ProcState :=
      match old_filament, spool.filament with
      | some of, some nf =>
        if of.id ≠ nf.id ∧ cpsTruthy cfg.create_per_spool = false then
          if ((s.spools_cache.map Prod.snd).any (fun sp =>
              spoolHasFilamentId sp of.id && !sp.isArchived)) = true then some s
          else
            match get_config_suffix cfg with
            | none => none
            | some suffixes =>
              foldSV suffixes (pySplitComma cfg.variants) (fun suffix variant s =>
                delete_filament cfg tmpl
                  (add_sm2s_to_filament of suffix variant none) false s) s
        else some s
      | _, _ => some s
    reparent.bind (handle_spool_update cfg tmpl spool)
  else if mtype = "deleted" then
    if payload.id ≠ 0 then
      match nlookup s.spools_cache payload.id with
      | none => some s
      | some old_spool =>
        let s := { s with spools_cache := nerase s.spools_cache payload.id }
        match old_spool.filament with
        | some _ => handle_spool_update cfg tmpl old_spool s
        | none => some s
    else some s
  else some s

/-! ### Concrete instances used by witnesses and counterexamples -/

/-- A concrete filename template: `f<filament id>.ini`. -/
def fnameFn : TFilament → String := fun f => "f" ++ toString f.base.id ++ ".ini"

/-- A concrete per-spool filename template: `s<spool id>.ini`. -/
def fnameSpoolFn : TFilament → String := fun f =>
  match f.spool with
  | some sp => "s" ++ toString sp.id ++ ".ini"
  | none => "s0.ini"

/-- A concrete PLA body template. -/
def plaBodyFn : TFilament → String := fun f => "pla " ++ toString f.base.id

/-- A concrete default body template. -/
def defaultBodyFn : TFilament → String := fun _ => "default"

/-- A concrete template environment providing the filename templates, a PLA
material template and the `ini` default template. -/
def tmplStd : Templates :=
  ⟨fun name =>
    if name = "filename.template" then some fnameFn
    else if name = "filename_for_spool.template" then some fnameSpoolFn
    else if name = "PLA.ini.template" then some plaBodyFn
    else if name = "default.ini.template" then some defaultBodyFn
    else none⟩

/-- A valid default-mode configuration (superslicer → suffixes `["ini"]`). -/
def cfgDefault : SpoolmanConfig :=
  { output_dir := "out", slicer := "superslicer",
    spoolman_url := "http://localhost:7912", template_path := "tpl" }

/-- The same configuration in per-spool-all mode. -/
def cfgAll : SpoolmanConfig := { cfgDefault with create_per_spool := some "all" }

/-- The same configuration in least-left mode. -/
def cfgLL : SpoolmanConfig :=
  { cfgDefault with create_per_spool := some "least-left" }

/-- Filament 1, material PLA. -/
def filA : Filament := { id := 1, material := some "PLA", vendor_id := none, vendor := none }

/-- Filament 2, material PLA. -/
def filB : Filament := { id := 2, material := some "PLA", vendor_id := none, vendor := none }

/-- Spool 10 referencing filament 1, non-archived (the C2 scenario spool). -/
def spool10 : Spool :=
  { id := 10, filament_id := some 1, filament := some filA,
    archived := some false, spool_weight := none, last_used := none }

/-- The C2 snapshot state: one filament (id 1) and one non-archived spool
(id 10) cached, nothing written yet. -/
def sSnapC2 : ProcState :=
  { ProcState.initial with
    filaments_cache := [(1, filA)], spools_cache := [(10, spool10)] }

/-- Spool 10 as previously cached, non-archived (C1 scenario). -/
def spOldC1 : Spool :=
  { id := 10, filament_id := some 1, filament := some filA,
    archived := some false, spool_weight := none, last_used := none }

/-- The updated payload for spool 10 with `archived=true` (C1 scenario). -/
def spNewC1 : Spool := { spOldC1 with archived := some true }

/-- C1 pre-state: spool 10's output was committed in per-spool-all mode
(cache key `spool-10-ini`, usage count 1, file present on disk). -/
def sC1 : ProcState :=
  { ProcState.initial with
    filament_id_to_filename := [("spool-10-ini", "out/s10.ini")],
    filament_id_to_content := [("spool-10", "bodyX")],
    filename_usage := [("out/s10.ini", 1)],
    filaments_cache := [(1, filA)],
    spools_cache := [(10, spOldC1)],
    files := [("out/s10.ini", "bodyX")] }

/-- Filament 1's subject record in default mode with suffix `ini`. -/
def fC3 : TFilament := add_sm2s_to_filament filA "ini" "" none

/-- C3 witness state: filament 1's record already committed with filename
`out/f1.ini` and body `plaBodyFn fC3`. -/
def sC3 : ProcState :=
  { ProcState.initial with
    filament_id_to_filename := [("1-ini", "out/f1.ini")],
    filament_id_to_content := [("1", plaBodyFn fC3)],
    filename_usage := [("out/f1.ini", 1)],
    files := [("out/f1.ini", plaBodyFn fC3)] }

/-- C7 witness state: filament 1's filename is shared (usage count 2). -/
def sC7 : ProcState :=
  { ProcState.initial with
    filament_id_to_filename := [("1-ini", "out/f1.ini")],
    filename_usage := [("out/f1.ini", 2)],
    files := [("out/f1.ini", "x")] }

/-- C7 witness state with usage count 1 (the last holder). -/
def sC7one : ProcState :=
  { ProcState.initial with
    filament_id_to_filename := [("1-ini", "out/f1.ini")],
    filename_usage := [("out/f1.ini", 1)],
    files := [("out/f1.ini", "x")] }

/-- Spool 1 with no `last_used` (C5 failing input). -/
def spM1 : Spool :=
  { id := 1, filament_id := none, filament := none, archived := none,
    spool_weight := none, last_used := none }

/-- Spool 2 with no `last_used` (C5 failing input). -/
def spM2 : Spool := { spM1 with id := 2 }

/-- Spool 1 with weight 5 (C6 witness). -/
def spW1 : Spool := { spM1 with spool_weight := some 5 }

/-- Spool 2 with weight 3 (C6 witness). -/
def spW2 : Spool := { spM2 with spool_weight := some 3 }

/-! ### Association-list lemmas -/

theorem alookup_ainsert_self {β : Type} (l : List (String × β)) (k : String) (v : β) :
    alookup (ainsert l k v) k = some v := by
  induction l with
  | nil => simp [ainsert, alookup]
  | cons p rest ih =>
    obtain ⟨a, b⟩ := p
    by_cases h : a = k
    · simp [ainsert, alookup, h]
    · simp [ainsert, alookup, h, ih]

theorem alookup_ainsert_ne {β : Type} (l : List (String × β)) (k k' : String) (v : β)
    (h : k' ≠ k) : alookup (ainsert l k v) k' = alookup l k' := by
  have h' : ¬ (k = k') := fun hh => h hh.symm
  induction l with
  | nil => simp [ainsert, alookup, h']
  | cons p rest ih =>
    obtain ⟨a, b⟩ := p
    by_cases ha : a = k
    · subst ha
      simp [ainsert, alookup, h']
    · simp [ainsert, alookup, ha, ih]

theorem ainsert_of_lookup_eq {β : Type} (l : List (String × β)) (k : String) (v : β)
    (h : alookup l k = some v) : ainsert l k v = l := by
  induction l with
  | nil => simp [alookup] at h
  | cons p rest ih =>
    obtain ⟨a, b⟩ := p
    by_cases ha : a = k
    · subst ha
      simp [alookup] at h
      simp [ainsert, h]
    · simp [alookup, ha] at h
      simp [ainsert, ha, ih h]

/-! ### Resolution lemmas -/

theorem resolve_spool_filament_id (fc : List (Nat × Filament)) (sp : Spool) :
    (resolve_spool_filament fc sp).id = sp.id := by
  unfold resolve_spool_filament
  rcases h : sp.filament with _ | f
  · rcases hid : sp.filament_id with _ | fid
    · simp
    · by_cases hf : fid ≠ 0
      · rcases hnl : nlookup fc fid with _ | g <;> simp [hf, hnl]
      · simp [hf]
  · simp

theorem resolve_spool_filament_archived (fc : List (Nat × Filament)) (sp : Spool) :
    (resolve_spool_filament fc sp).archived = sp.archived := by
  unfold resolve_spool_filament
  rcases h : sp.filament with _ | f
  · rcases hid : sp.filament_id with _ | fid
    · simp
    · by_cases hf : fid ≠ 0
      · rcases hnl : nlookup fc fid with _ | g <;> simp [hf, hnl]
      · simp [hf]
  · simp

theorem resolve_spool_filament_of_some (fc : List (Nat × Filament)) (sp : Spool)
    (h : sp.filament.isSome = true) : resolve_spool_filament fc sp = sp := by
  unfold resolve_spool_filament
  rcases hf : sp.filament with _ | f
  · rw [hf] at h; simp at h
  · simp

/-! ### `delete_filament` characterizations -/

theorem delete_filament_uncached (cfg : SpoolmanConfig) (tmpl : Templates)
    (f : TFilament) (b : Bool) (s : ProcState)
    (h : alookup s.filament_id_to_filename (get_filename_cache_key cfg f) = none) :
    delete_filament cfg tmpl f b s = some s := by
  simp [delete_filament, get_cached_filename_from_filaments_id, h]

theorem delete_filament_nousage (cfg : SpoolmanConfig) (tmpl : Templates)
    (f : TFilament) (b : Bool) (s : ProcState) (fn : String)
    (hc : alookup s.filament_id_to_filename (get_filename_cache_key cfg f) = some fn)
    (hu : alookup s.filename_usage fn = none) :
    delete_filament cfg tmpl f b s = some s := by
  simp [delete_filament, get_cached_filename_from_filaments_id, hc, hu]

theorem delete_filament_live (cfg : SpoolmanConfig) (tmpl : Templates)
    (f : TFilament) (b : Bool) (s : ProcState) (fn : String) (n : Int)
    (hc : alookup s.filament_id_to_filename (get_filename_cache_key cfg f) = some fn)
    (hu : alookup s.filename_usage fn = some n) (hpos : 0 < n - 1) :
    delete_filament cfg tmpl f b s =
      some { s with filename_usage := ainsert s.filename_usage fn (n - 1) } := by
  simp [delete_filament, get_cached_filename_from_filaments_id, hc, hu, hpos]

theorem delete_filament_update_same (cfg : SpoolmanConfig) (tmpl : Templates)
    (f : TFilament) (s : ProcState) (fn : String) (n : Int)
    (hc : alookup s.filament_id_to_filename (get_filename_cache_key cfg f) = some fn)
    (hu : alookup s.filename_usage fn = some n) (hz : ¬ 0 < n - 1)
    (hfn : get_filament_filename cfg tmpl f = some fn) :
    delete_filament cfg tmpl f true s =
      some { s with filename_usage := ainsert s.filename_usage fn (n - 1) } := by
  simp [delete_filament, get_cached_filename_from_filaments_id, hc, hu, hz, hfn]

theorem delete_filament_removes (cfg : SpoolmanConfig) (tmpl : Templates)
    (f : TFilament) (s : ProcState) (fn : String) (n : Int) (c : String)
    (hc : alookup s.filament_id_to_filename (get_filename_cache_key cfg f) = some fn)
    (hu : alookup s.filename_usage fn = some n) (hz : ¬ 0 < n - 1)
    (hfile : alookup s.files fn = some c) :
    delete_filament cfg tmpl f false s =
      some { s with filename_usage := ainsert s.filename_usage fn (n - 1),
                    files := s.files.filter (fun p => p.1 ≠ fn),
                    deleteLog := fn :: s.deleteLog } := by
  simp [delete_filament, get_cached_filename_from_filaments_id, hc, hu, hz,
    os_remove, hfile]

/-! ### `write_filament` characterizations -/

theorem write_filament_skips (cfg : SpoolmanConfig) (tmpl : Templates)
    (f : TFilament) (s : ProcState) (fn : String) (t : TFilament → String)
    (hfn : get_filament_filename cfg tmpl f = some fn)
    (ht : pick_content_template tmpl f = some t)
    (hold : alookup s.filament_id_to_filename (get_filename_cache_key cfg f) = some fn)
    (hct : alookup s.filament_id_to_content (get_content_cache_key cfg f) = some (t f)) :
    write_filament cfg tmpl f s =
      some { s with filename_usage := usage_incr s.filename_usage fn } := by
  simp [write_filament, get_cached_filename_from_filaments_id, hfn, ht, hold, hct,
    ainsert_of_lookup_eq _ _ _ hold]

theorem write_filament_writes (cfg : SpoolmanConfig) (tmpl : Templates)
    (f : TFilament) (s : ProcState) (fn : String) (t : TFilament → String)
    (hfn : get_filament_filename cfg tmpl f = some fn)
    (ht : pick_content_template tmpl f = some t)
    (hne : ¬ (alookup s.filament_id_to_content (get_content_cache_key cfg f) = some (t f) ∧
        alookup s.filament_id_to_filename (get_filename_cache_key cfg f) = some fn)) :
    write_filament cfg tmpl f s =
      some { s with
        filename_usage := usage_incr s.filename_usage fn,
        filament_id_to_filename :=
          ainsert s.filament_id_to_filename (get_filename_cache_key cfg f) fn,
        filament_id_to_content :=
          ainsert s.filament_id_to_content (get_content_cache_key cfg f) (t f),
        files := ainsert s.files fn (t f),
        writeLog := fn :: s.writeLog } := by
  simp only [write_filament, get_cached_filename_from_filaments_id, hfn, ht,
    atomic_write]
  rw [if_neg]
  exact fun hcontra => hne ⟨hcontra.1, hcontra.2⟩

/-! ### Selector lemmas (least-left) -/

theorem wLtB_trans (a b c : Option ℚ) (hab : wLtB a b = true) (hbc : wLtB b c = true) :
    wLtB a c = true := by
  rcases a with _ | x <;> rcases b with _ | y <;> rcases c with _ | z <;>
    simp_all [wLtB]
  linarith

theorem wLtB_eq_of_not (a b : Option ℚ) (h1 : ¬ wLtB a b = true) (h2 : ¬ wLtB b a = true) :
    a = b := by
  rcases a with _ | x <;> rcases b with _ | y <;> simp_all [wLtB]
  linarith

theorem llLtB_trans (a b c : Spool) (hab : llLtB a b = true) (hbc : llLtB b c = true) :
    llLtB a c = true := by
  simp only [llLtB, Bool.or_eq_true, Bool.and_eq_true, decide_eq_true_eq] at *
  rcases hab with h1 | ⟨he1, hi1⟩ <;> rcases hbc with h2 | ⟨he2, hi2⟩
  · exact Or.inl (wLtB_trans _ _ _ h1 h2)
  · rw [he2] at h1
    exact Or.inl h1
  · rw [← he1] at h2
    exact Or.inl h2
  · exact Or.inr ⟨he1.trans he2, Nat.lt_trans hi1 hi2⟩

theorem llLtB_total (a b : Spool) (h : a.id ≠ b.id) :
    llLtB a b = true ∨ llLtB b a = true := by
  simp only [llLtB, Bool.or_eq_true, Bool.and_eq_true, decide_eq_true_eq]
  by_cases h1 : wLtB a.spool_weight b.spool_weight = true
  · exact Or.inl (Or.inl h1)
  by_cases h2 : wLtB b.spool_weight a.spool_weight = true
  · exact Or.inr (Or.inl h2)
  have he : a.spool_weight = b.spool_weight := wLtB_eq_of_not _ _ h1 h2
  rcases Nat.lt_or_ge a.id b.id with hlt | hge
  · exact Or.inl (Or.inr ⟨he, hlt⟩)
  · have hgt : b.id < a.id := lt_of_le_of_ne hge fun hh => h hh.symm
    exact Or.inr (Or.inr ⟨he.symm, hgt⟩)

theorem llLtB_eq_true_iff (a b : Spool) :
    llLtB a b = true ↔
      (wLtB a.spool_weight b.spool_weight = true ∨
       (a.spool_weight = b.spool_weight ∧ a.id < b.id)) := by
  simp [llLtB, Bool.or_eq_true, Bool.and_eq_true, decide_eq_true_eq]

theorem select_ll_go_spec (rest : List Spool) : ∀ best : Spool,
    ((best :: rest).map Spool.id).Nodup →
    (select_ll_go best rest ∈ best :: rest ∧
     ∀ t ∈ best :: rest, t.id ≠ (select_ll_go best rest).id →
       llLtB (select_ll_go best rest) t = true) := by
  induction rest with
  | nil =>
    intro best _
    simp only [select_ll_go]
    refine ⟨List.mem_cons_self _ _, ?_⟩
    intro t ht hne
    rcases List.mem_cons.mp ht with h | h
    · subst h
      exact absurd rfl hne
    · simp at h
  | cons sp rest' ih =>
    intro best hnd
    have h1 := List.nodup_cons.mp (by simpa using hnd :
      (best.id :: sp.id :: rest'.map Spool.id).Nodup)
    have hbestsp : best.id ≠ sp.id := by
      intro hh
      exact h1.1 (by simp [hh])
    have hbestrest : best.id ∉ rest'.map Spool.id :=
      fun hh => h1.1 (List.mem_cons_of_mem _ hh)
    have h2 := List.nodup_cons.mp h1.2
    by_cases hc : llLtB sp best = true
    · -- the new element wins: continue with best' = sp; the loser is best
      simp only [select_ll_go, if_pos hc]
      have hnd' : ((sp :: rest').map Spool.id).Nodup := by simpa using h1.2
      obtain ⟨hmem, hmin⟩ := ih sp hnd'
      have hloser : llLtB (select_ll_go sp rest') best = true := by
        by_cases hmb : select_ll_go sp rest' = sp
        · rw [hmb]
          exact hc
        · have hmrest : select_ll_go sp rest' ∈ rest' := by
            rcases List.mem_cons.mp hmem with h | h
            · exact absurd h hmb
            · exact h
          have hspm : sp.id ≠ (select_ll_go sp rest').id := by
            intro hh
            exact (List.nodup_cons.mp (by simpa using hnd' :
              (sp.id :: rest'.map Spool.id).Nodup)).1
              (hh ▸ List.mem_map_of_mem Spool.id hmrest)
          have h3 : llLtB (select_ll_go sp rest') sp = true :=
            hmin sp (List.mem_cons_self _ _) hspm
          exact llLtB_trans _ _ _ h3 hc
      constructor
      · rcases List.mem_cons.mp hmem with h | h
        · rw [h]
          exact List.mem_cons_of_mem _ (List.mem_cons_self _ _)
        · exact List.mem_cons_of_mem _ (List.mem_cons_of_mem _ h)
      · intro t ht hne
        rcases List.mem_cons.mp ht with h | h
        · rw [h]
          exact hloser
        · exact hmin t h hne
    · -- the running best survives: continue with best; the loser is sp
      simp only [select_ll_go, if_neg hc]
      have hkey : llLtB best sp = true := by
        rcases llLtB_total sp best (fun hh => hbestsp hh.symm) with h | h
        · exact absurd h hc
        · exact h
      have hnd' : ((best :: rest').map Spool.id).Nodup := by
        simp only [List.map_cons, List.nodup_cons]
        exact ⟨hbestrest, h2.2⟩
      obtain ⟨hmem, hmin⟩ := ih best hnd'
      have hloser : llLtB (select_ll_go best rest') sp = true := by
        by_cases hmb : select_ll_go best rest' = best
        · rw [hmb]
          exact hkey
        · have hmrest : select_ll_go best rest' ∈ rest' := by
            rcases List.mem_cons.mp hmem with h | h
            · exact absurd h hmb
            · exact h
          have hbm : best.id ≠ (select_ll_go best rest').id := by
            intro hh
            exact hbestrest (hh ▸ List.mem_map_of_mem Spool.id hmrest)
          have h3 : llLtB (select_ll_go best rest') best = true :=
            hmin best (List.mem_cons_self _ _) hbm
          exact llLtB_trans _ _ _ h3 hkey
      constructor
      · rcases List.mem_cons.mp hmem with h | h
        · rw [h]
          exact List.mem_cons_self _ _
        · exact List.mem_cons_of_mem _ (List.mem_cons_of_mem _ h)
      · intro t ht hne
        rcases List.mem_cons.mp ht with h | h
        · rw [h] at hne ⊢
          exact hmin best (List.mem_cons_self _ _) hne
        · rcases List.mem_cons.mp h with h' | h'
          · rw [h']
            exact hloser
          · exact hmin t (List.mem_cons_of_mem _ h') hne

/-! ### Commit postcondition -/

theorem write_filament_post (cfg : SpoolmanConfig) (tmpl : Templates)
    (f : TFilament) (s s₁ : ProcState) (fn : String) (t : TFilament → String)
    (hfn : get_filament_filename cfg tmpl f = some fn)
    (ht : pick_content_template tmpl f = some t)
    (hw : write_filament cfg tmpl f s = some s₁) :
    alookup s₁.filament_id_to_filename (get_filename_cache_key cfg f) = some fn ∧
    alookup s₁.filament_id_to_content (get_content_cache_key cfg f) = some (t f) := by
  simp only [write_filament, get_cached_filename_from_filaments_id, hfn, ht] at hw
  split at hw
  case isTrue hcond =>
    rw [Option.some.injEq] at hw
    subst hw
    exact ⟨alookup_ainsert_self _ _ _, hcond.1⟩
  case isFalse hcond =>
    rw [Option.some.injEq] at hw
    subst hw
    exact ⟨alookup_ainsert_self _ _ _, alookup_ainsert_self _ _ _⟩

/-! ### Claim theorems -/

/-- C10: for every configuration that passes `SpoolmanConfig` validation,
`get_config_suffix` never raises — its error branch is unreachable — and it
returns `["ini"]` for slic3r/superslicer/prusaslicer and `["json", "info"]`
for orcaslicer. -/
theorem get_config_suffix_total_of_validates (cfg : SpoolmanConfig)
    (h : cfg.validates = true) :
    (get_config_suffix cfg).isSome = true ∧
    ((cfg.slicer = "slic3r" ∨ cfg.slicer = "superslicer" ∨ cfg.slicer = "prusaslicer") →
      get_config_suffix cfg = some ["ini"]) ∧
    (cfg.slicer = "orcaslicer" → get_config_suffix cfg = some ["json", "info"]) := by
  unfold SpoolmanConfig.validates at h
  rw [Bool.and_eq_true] at h
  have hs := of_decide_eq_true h.1
  refine ⟨?_, ?_, ?_⟩
  · rcases hs with h1 | h1 | h1 | h1 <;> simp [get_config_suffix, h1]
  · intro hcase
    rcases hcase with h1 | h1 | h1 <;> simp [get_config_suffix, h1]
  · intro h1
    simp [get_config_suffix, h1]

/-- C10 witness: the concrete superslicer configuration validates and gets a
suffix list. -/
theorem get_config_suffix_total_witness :
    cfgDefault.validates = true ∧ (get_config_suffix cfgDefault).isSome = true :=
  ⟨by decide, (get_config_suffix_total_of_validates cfgDefault (by decide)).1⟩

/-- C9: a vendor `added` event inserts into the vendor map only, and a vendor
`deleted` event removes from the vendor map only (when present); filament
cache, spool cache, filename cache, content cache, usage counts, the
filesystem and both operation logs are untouched. -/
theorem handle_vendor_update_msg_frame (cfg : SpoolmanConfig) (tmpl : Templates)
    (v : Vendor) (s : ProcState) :
    handle_vendor_update_msg cfg tmpl "added" v s =
      some { s with vendors_cache := ninsert s.vendors_cache v.id v } ∧
    handle_vendor_update_msg cfg tmpl "deleted" v s =
      some (if (nlookup s.vendors_cache v.id).isSome then
        { s with vendors_cache := nerase s.vendors_cache v.id } else s) := by
  constructor
  · simp [handle_vendor_update_msg]
  · simp [handle_vendor_update_msg]

/-- C8: releasing a subject whose cache key was never committed is a complete
no-op: the state (usage counts, caches, filesystem, logs) is returned
unchanged. -/
theorem delete_filament_noop_when_uncommitted (cfg : SpoolmanConfig)
    (tmpl : Templates) (f : TFilament) (b : Bool) (s : ProcState)
    (h : alookup s.filament_id_to_filename (get_filename_cache_key cfg f) = none) :
    delete_filament cfg tmpl f b s = some s :=
  delete_filament_uncached cfg tmpl f b s h

/-- C8 witness: releasing filament 1's subject from the initial (empty) state
is a no-op. -/
theorem delete_filament_noop_witness :
    delete_filament cfgDefault tmplStd fC3 false ProcState.initial =
      some ProcState.initial :=
  delete_filament_noop_when_uncommitted cfgDefault tmplStd fC3 false
    ProcState.initial rfl

/-- C7: reference counting.  With a committed filename `fn` at usage count
`n`: a release that leaves the count positive only decrements it (no file is
deleted, no log entry appears); when the count is 1 the release drops it to 0
and deletes the file (non-update path, file present). -/
theorem delete_filament_refcount (cfg : SpoolmanConfig) (tmpl : Templates)
    (f : TFilament) (s : ProcState) (fn : String) (n : Int)
    (hc : alookup s.filament_id_to_filename (get_filename_cache_key cfg f) = some fn)
    (hu : alookup s.filename_usage fn = some n) :
    (∀ b : Bool, 0 < n - 1 → delete_filament cfg tmpl f b s =
       some { s with filename_usage := ainsert s.filename_usage fn (n - 1) }) ∧
    (n = 1 → ∀ c, alookup s.files fn = some c →
       delete_filament cfg tmpl f false s =
         some { s with filename_usage := ainsert s.filename_usage fn 0,
                       files := s.files.filter (fun p => p.1 ≠ fn),
                       deleteLog := fn :: s.deleteLog }) := by
  constructor
  · intro b hpos
    exact delete_filament_live cfg tmpl f b s fn n hc hu hpos
  · intro h1 c hfile
    subst h1
    have hz : ¬ (0 : Int) < 1 - 1 := by norm_num
    simpa using delete_filament_removes cfg tmpl f s fn 1 c hc hu hz hfile

/-- C7 witness: at usage count 2 a release only decrements; at usage count 1
it deletes the file. -/
theorem delete_filament_refcount_witness :
    (delete_filament cfgDefault tmplStd fC3 false sC7 =
      some { sC7 with filename_usage := ainsert sC7.filename_usage "out/f1.ini" 1 }) ∧
    (delete_filament cfgDefault tmplStd fC3 false sC7one =
      some { sC7one with
        filename_usage := ainsert sC7one.filename_usage "out/f1.ini" 0,
        files := sC7one.files.filter (fun p => p.1 ≠ "out/f1.ini"),
        deleteLog := ["out/f1.ini"] }) :=
  ⟨(delete_filament_refcount cfgDefault tmplStd fC3 sC7 "out/f1.ini" 2 rfl rfl).1
      false (by norm_num),
   (delete_filament_refcount cfgDefault tmplStd fC3 sC7one "out/f1.ini" 1 rfl rfl).2
      rfl "x" rfl⟩

/-- C3: committing a subject whose cached filename and cached body both equal
the freshly computed ones skips the write: the filesystem, write log, filename
cache and content cache are unchanged (only the usage count is incremented, as
commit step 1 precedes the check); consequently committing the same subject
twice performs zero file writes on the second call. -/
theorem write_filament_idempotent (cfg : SpoolmanConfig) (tmpl : Templates)
    (f : TFilament) (s : ProcState) (fn : String) (t : TFilament → String)
    (hfn : get_filament_filename cfg tmpl f = some fn)
    (ht : pick_content_template tmpl f = some t) :
    ((alookup s.filament_id_to_filename (get_filename_cache_key cfg f) = some fn) →
     (alookup s.filament_id_to_content (get_content_cache_key cfg f) = some (t f)) →
     write_filament cfg tmpl f s =
       some { s with filename_usage := usage_incr s.filename_usage fn }) ∧
    (∀ s₁, write_filament cfg tmpl f s = some s₁ →
      write_filament cfg tmpl f s₁ =
        some { s₁ with filename_usage := usage_incr s₁.filename_usage fn }) := by
  constructor
  · intro hold hct
    exact write_filament_skips cfg tmpl f s fn t hfn ht hold hct
  · intro s₁ hw
    obtain ⟨h1, h2⟩ := write_filament_post cfg tmpl f s s₁ fn t hfn ht hw
    exact write_filament_skips cfg tmpl f s₁ fn t hfn ht h1 h2

/-- C3 witness: re-committing filament 1's already-committed record only bumps
the usage count. -/
theorem write_filament_idempotent_witness :
    write_filament cfgDefault tmplStd fC3 sC3 =
      some { sC3 with filename_usage := usage_incr sC3.filename_usage "out/f1.ini" } :=
  (write_filament_idempotent cfgDefault tmplStd fC3 sC3 "out/f1.ini" plaBodyFn
    rfl rfl).1 rfl rfl

/-- C5 (failing input): two spools both lacking `last_used`, ids 1 and 2 —
the most-recent selector returns the spool with the LARGEST id (2), whereas
the claim (and the function's own docstring, "tie-break by lowest id")
requires the smallest id (1).  For an absent `last_used` the key is
`("", s["id"])`, so under `max` the tie is broken upward. -/
theorem select_spool_by_most_recent_absent_tie :
    select_spool_by_most_recent [spM1, spM2] = some spM2 ∧
    spM1.id = 1 ∧ spM2.id = 2 ∧
    spM1.last_used = none ∧ spM2.last_used = none := by
  decide

/-- C6: on a non-empty candidate list with pairwise distinct ids, the
least-left selector returns a spool of the list that is strictly below every
other candidate in the order "smallest `spool_weight` (absent = +infinity),
ties broken by smallest id". -/
theorem select_spool_by_least_left_spec (l : List Spool) (hne : l ≠ [])
    (hnd : (l.map Spool.id).Nodup) :
    ∃ m, select_spool_by_least_left l = some m ∧ m ∈ l ∧
      ∀ t ∈ l, t.id ≠ m.id →
        (wLtB m.spool_weight t.spool_weight = true ∨
         (m.spool_weight = t.spool_weight ∧ m.id < t.id)) := by
  rcases l with _ | ⟨a, rest⟩
  · exact absurd rfl hne
  obtain ⟨hmem, hmin⟩ := select_ll_go_spec rest a hnd
  refine ⟨select_ll_go a rest, rfl, hmem, ?_⟩
  intro t ht hne'
  exact (llLtB_eq_true_iff _ _).mp (hmin t ht hne')

/-! ### Fold lemmas and the archived no-op -/

theorem optFold_cons {σ α : Type} (f : α → σ → Option σ) (a : α) (rest : List α)
    (s : σ) : optFold f (a :: rest) s = (f a s).bind (optFold f rest) := by
  cases h : f a s <;> simp [optFold, h]

theorem optFold_singleton {σ α : Type} (f : α → σ → Option σ) (a : α) (s : σ) :
    optFold f [a] s = f a s := by
  rw [optFold_cons]
  cases h : f a s <;> simp [optFold, h]

theorem handle_spool_update_archived_all (cfg : SpoolmanConfig) (tmpl : Templates)
    (sp : Spool) (s : ProcState)
    (hall : cfg.create_per_spool = some "all")
    (hsome : sp.filament.isSome = true)
    (harch : sp.isArchived = true) :
    handle_spool_update cfg tmpl sp s = some s := by
  obtain ⟨f, hf⟩ := Option.isSome_iff_exists.mp hsome
  simp [handle_spool_update, resolve_spool_filament_of_some _ _ hsome, hf, hall, harch]

/-- C1 (amended): in per-spool-all mode, processing an `updated` spool event
whose payload has `archived=true` and a resolvable filament never renders or
commits an output for that spool — but it also performs NO release: the
handler only replaces the spool cache entry, so a previously committed output
file for that spool's cache key is retained together with its usage count,
filename cache entry and content cache entry. -/
theorem handle_spool_update_msg_archived_all (cfg : SpoolmanConfig)
    (tmpl : Templates) (payload : Spool) (s : ProcState)
    (hall : cfg.create_per_spool = some "all")
    (harch : payload.archived = some true)
    (hres : (resolve_spool_filament s.filaments_cache payload).filament.isSome = true) :
    handle_spool_update_msg cfg tmpl "updated" payload s =
      some { s with
        spools_cache := ninsert s.spools_cache payload.id
            (resolve_spool_filament s.filaments_cache payload) } := by
  obtain ⟨f, hf⟩ := Option.isSome_iff_exists.mp hres
  have hid := resolve_spool_filament_id s.filaments_cache payload
  have harch2 : (resolve_spool_filament s.filaments_cache payload).isArchived = true := by
    simp [Spool.isArchived, resolve_spool_filament_archived, harch]
  have hcps : cpsTruthy cfg.create_per_spool = true := by
    rw [hall]
    decide
  have hnoop := handle_spool_update_archived_all cfg tmpl
    (resolve_spool_filament s.filaments_cache payload)
    { s with
      spools_cache := ninsert s.spools_cache payload.id
          (resolve_spool_filament s.filaments_cache payload) } hall hres harch2
  simp only [handle_spool_update_msg, if_true, hf, hid]
  cases hof : (if payload.id ≠ 0 then nlookup s.spools_cache payload.id
      else none).bind (·.filament) with
  | none => simp [hof, hnoop]
  | some of =>
    have hcond : ¬ (of.id ≠ f.id ∧ cpsTruthy cfg.create_per_spool = false) := by
      rw [hcps]
      rintro ⟨_, hc⟩
      exact absurd hc (by decide)
    simp [hof, hcond, hnoop]

/-- C1 witness: processing the archived update for spool 10 only replaces its
spool cache entry. -/
theorem handle_spool_update_msg_archived_all_witness :
    handle_spool_update_msg cfgAll tmplStd "updated" spNewC1 sC1 =
      some { sC1 with
        spools_cache := ninsert sC1.spools_cache spNewC1.id
            (resolve_spool_filament sC1.filaments_cache spNewC1) } :=
  handle_spool_update_msg_archived_all cfgAll tmplStd spNewC1 sC1 rfl rfl rfl

/-- C1 counterexample: spool 10's output (`spool-10-ini` ↦ `out/s10.ini`,
usage count 1, file present) was committed; the claim says processing the
`archived=true` update releases it, deleting the file once the usage count
reaches zero.  The code retains everything: the file still holds its content,
nothing was deleted or written, and the usage count is still 1. -/
theorem handle_spool_update_msg_archived_all_counterexample :
    (handle_spool_update_msg cfgAll tmplStd "updated" spNewC1 sC1).map
        (fun s => (alookup s.files "out/s10.ini", s.deleteLog, s.writeLog,
          alookup s.filename_usage "out/s10.ini")) =
      some (some "bodyX", [], [], some 1) := by
  decide

/-- C2 (amended): in default mode, the snapshot with one PLA filament (id 1)
and one non-archived spool (id 10) performs exactly one write, with the
filename derived from filament 1's record.  A subsequent `deleted` event for
spool 10 empties the spool cache, which the permissive first-run condition
(`len(spools_cache) == 0`) counts as "has active spools" — so the file is NOT
deleted: the release runs with `is_update` semantics (usage drops to 0 but
deletion is suppressed because the recomputed filename is unchanged) and the
re-commit is skipped (filename and body unchanged), restoring the usage count
to 1.  No further writes occur and the single file remains. -/
theorem snapshot_then_delete_retains_file (tmpl : Templates)
    (bt : TFilament → String) (fname : String)
    (hfname : get_filament_filename cfgDefault tmpl
      (add_sm2s_to_filament filA "ini" "" none) = some fname)
    (hbt : pick_content_template tmpl
      (add_sm2s_to_filament filA "ini" "" none) = some bt) :
    ∃ s₁ s₂,
      update_all_filaments cfgDefault tmpl sSnapC2 = some s₁ ∧
      s₁.writeLog = [fname] ∧ s₁.deleteLog = [] ∧
      handle_spool_update_msg cfgDefault tmpl "deleted" spool10 s₁ = some s₂ ∧
      s₂.writeLog = [fname] ∧ s₂.deleteLog = [] ∧
      alookup s₂.files fname =
        some (bt (add_sm2s_to_filament filA "ini" "" none)) ∧
      alookup s₂.filename_usage fname = some 1 ∧
      s₂.spools_cache = [] := by
  have hne0 : ¬ (alookup sSnapC2.filament_id_to_content
        (get_content_cache_key cfgDefault (add_sm2s_to_filament filA "ini" "" none)) =
          some (bt (add_sm2s_to_filament filA "ini" "" none)) ∧
      alookup sSnapC2.filament_id_to_filename
        (get_filename_cache_key cfgDefault (add_sm2s_to_filament filA "ini" "" none)) =
          some fname) := by
    rintro ⟨hcon, -⟩
    simp [sSnapC2, ProcState.initial, alookup] at hcon
  have hw1 := write_filament_writes cfgDefault tmpl
    (add_sm2s_to_filament filA "ini" "" none) sSnapC2 fname bt hfname hbt hne0
  have hdisp : update_all_filaments cfgDefault tmpl sSnapC2 =
      write_filament cfgDefault tmpl (add_sm2s_to_filament filA "ini" "" none)
        sSnapC2 := by
    simp [update_all_filaments, cfgDefault, process_filaments_default, sSnapC2,
      spool10, Spool.isArchived, nlookup, get_config_suffix, foldSV,
      optFold_singleton, pySplitComma, splitCommaAux, filA]
  have hsnap : update_all_filaments cfgDefault tmpl sSnapC2 =
      some { sSnapC2 with
        filament_id_to_filename := [("1-ini", fname)],
        filament_id_to_content :=
          [("1", bt (add_sm2s_to_filament filA "ini" "" none))],
        filename_usage := [(fname, 1)],
        files := [(fname, bt (add_sm2s_to_filament filA "ini" "" none))],
        writeLog := [fname] } := by
    rw [hdisp, hw1]
    rfl
  have hdel := delete_filament_update_same cfgDefault tmpl
    (add_sm2s_to_filament filA "ini" "" none)
    { sSnapC2 with
      filament_id_to_filename := [("1-ini", fname)],
      filament_id_to_content :=
        [("1", bt (add_sm2s_to_filament filA "ini" "" none))],
      filename_usage := [(fname, 1)],
      files := [(fname, bt (add_sm2s_to_filament filA "ini" "" none))],
      writeLog := [fname],
      spools_cache := [] } fname 1 rfl (by simp [alookup]) (by norm_num) hfname
  have hsk := write_filament_skips cfgDefault tmpl
    (add_sm2s_to_filament filA "ini" "" none)
    { sSnapC2 with
      filament_id_to_filename := [("1-ini", fname)],
      filament_id_to_content :=
        [("1", bt (add_sm2s_to_filament filA "ini" "" none))],
      filename_usage := ainsert [(fname, 1)] fname 0,
      files := [(fname, bt (add_sm2s_to_filament filA "ini" "" none))],
      writeLog := [fname],
      spools_cache := [] } fname bt hfname hbt rfl rfl
  have hmsg : handle_spool_update_msg cfgDefault tmpl "deleted" spool10
      { sSnapC2 with
        filament_id_to_filename := [("1-ini", fname)],
        filament_id_to_content :=
          [("1", bt (add_sm2s_to_filament filA "ini" "" none))],
        filename_usage := [(fname, 1)],
        files := [(fname, bt (add_sm2s_to_filament filA "ini" "" none))],
        writeLog := [fname] } =
      (delete_filament cfgDefault tmpl (add_sm2s_to_filament filA "ini" "" none)
        true
        { sSnapC2 with
          filament_id_to_filename := [("1-ini", fname)],
          filament_id_to_content :=
            [("1", bt (add_sm2s_to_filament filA "ini" "" none))],
          filename_usage := [(fname, 1)],
          files := [(fname, bt (add_sm2s_to_filament filA "ini" "" none))],
          writeLog := [fname],
          spools_cache := [] }).bind
        (write_filament cfgDefault tmpl
          (add_sm2s_to_filament filA "ini" "" none)) := by
    simp [handle_spool_update_msg, handle_spool_update, sSnapC2, spool10, filA,
      cfgDefault, nlookup, nerase, resolve_spool_filament, get_config_suffix,
      foldSV, optFold_singleton, pySplitComma, splitCommaAux, Spool.isArchived]
  have hev : handle_spool_update_msg cfgDefault tmpl "deleted" spool10
      { sSnapC2 with
        filament_id_to_filename := [("1-ini", fname)],
        filament_id_to_content :=
          [("1", bt (add_sm2s_to_filament filA "ini" "" none))],
        filename_usage := [(fname, 1)],
        files := [(fname, bt (add_sm2s_to_filament filA "ini" "" none))],
        writeLog := [fname] } =
      write_filament cfgDefault tmpl (add_sm2s_to_filament filA "ini" "" none)
        { sSnapC2 with
          filament_id_to_filename := [("1-ini", fname)],
          filament_id_to_content :=
            [("1", bt (add_sm2s_to_filament filA "ini" "" none))],
          filename_usage := ainsert [(fname, 1)] fname 0,
          files := [(fname, bt (add_sm2s_to_filament filA "ini" "" none))],
          writeLog := [fname],
          spools_cache := [] } := by
    rw [hmsg, hdel]
    rfl
  refine ⟨_, _, hsnap, rfl, rfl, hev.trans hsk, rfl, rfl, ?_, ?_, rfl⟩
  · simp [alookup]
  · simp [usage_incr, alookup, ainsert]

/-- C2 witness: the scenario at the concrete template environment; the single
file is `out/f1.ini` with the PLA body. -/
theorem snapshot_then_delete_retains_file_witness :
    ∃ s₁ s₂,
      update_all_filaments cfgDefault tmplStd sSnapC2 = some s₁ ∧
      s₁.writeLog = ["out/f1.ini"] ∧ s₁.deleteLog = [] ∧
      handle_spool_update_msg cfgDefault tmplStd "deleted" spool10 s₁ = some s₂ ∧
      s₂.writeLog = ["out/f1.ini"] ∧ s₂.deleteLog = [] ∧
      alookup s₂.files "out/f1.ini" =
        some (plaBodyFn (add_sm2s_to_filament filA "ini" "" none)) ∧
      alookup s₂.filename_usage "out/f1.ini" = some 1 ∧
      s₂.spools_cache = [] :=
  snapshot_then_delete_retains_file tmplStd plaBodyFn "out/f1.ini" rfl rfl

/-- C2 counterexample: the claim says the `deleted` event for spool 10 deletes
the one file.  Running the scenario at the concrete template environment, the
file `out/f1.ini` still exists with its content, the delete log is empty, and
the write log holds exactly the one snapshot write. -/
theorem snapshot_then_delete_counterexample :
    ((update_all_filaments cfgDefault tmplStd sSnapC2).bind
      (handle_spool_update_msg cfgDefault tmplStd "deleted" spool10)).map
        (fun s => (alookup s.files "out/f1.ini", s.deleteLog, s.writeLog)) =
      some (some "pla 1", [], ["out/f1.ini"]) := by
  decide

/-- C4: in default mode, an `updated` spool event reparenting spool `k` from
filament A to filament B — where A's output was committed (usage 1, file on
disk) and A has no remaining non-archived spool — deletes A's file before
reconciling, then writes B's file.  In a per-spool mode (`least-left` shown)
the reparent check is skipped: nothing is deleted and A's file survives. -/
theorem reparent_moves_output (tmpl : Templates) (fA fB : Filament) (k : Nat)
    (fnA fnB fnB2 txtA : String) (bt bt2 : TFilament → String)
    (hid : fA.id ≠ fB.id) (hk : k ≠ 0)
    (hkey : toString fA.id ++ "-" ++ "ini" ≠ toString fB.id ++ "-" ++ "ini")
    (hckey : toString fA.id ≠ toString fB.id)
    (hfnB : get_filament_filename cfgDefault tmpl
      (add_sm2s_to_filament fB "ini" "" none) = some fnB)
    (hbtB : pick_content_template tmpl
      (add_sm2s_to_filament fB "ini" "" none) = some bt)
    (hAB : fnA ≠ fnB)
    (hfnB2 : get_filament_filename cfgLL tmpl
      (add_sm2s_to_filament fB "ini" ""
        (some { id := k, filament_id := some fB.id, filament := some fB,
                archived := some false, spool_weight := none,
                last_used := none })) = some fnB2)
    (hbtB2 : pick_content_template tmpl
      (add_sm2s_to_filament fB "ini" ""
        (some { id := k, filament_id := some fB.id, filament := some fB,
                archived := some false, spool_weight := none,
                last_used := none })) = some bt2)
    (hAB2 : fnA ≠ fnB2) :
    (∃ s', handle_spool_update_msg cfgDefault tmpl "updated"
        { id := k, filament_id := some fB.id, filament := some fB,
          archived := some false, spool_weight := none, last_used := none }
        { ProcState.initial with
          filament_id_to_filename := [(toString fA.id ++ "-" ++ "ini", fnA)],
          filament_id_to_content := [(toString fA.id, txtA)],
          filename_usage := [(fnA, 1)],
          spools_cache := [(k,
            { id := k, filament_id := some fA.id, filament := some fA,
              archived := some false, spool_weight := none,
              last_used := none })],
          files := [(fnA, txtA)] } = some s' ∧
      s'.deleteLog = [fnA] ∧ s'.writeLog = [fnB] ∧
      alookup s'.files fnA = none ∧
      alookup s'.files fnB = some (bt (add_sm2s_to_filament fB "ini" "" none)) ∧
      alookup s'.filename_usage fnA = some 0 ∧
      alookup s'.filename_usage fnB = some 1) ∧
    (∃ s₂, handle_spool_update_msg cfgLL tmpl "updated"
        { id := k, filament_id := some fB.id, filament := some fB,
          archived := some false, spool_weight := none, last_used := none }
        { ProcState.initial with
          filament_id_to_filename := [(toString fA.id ++ "-" ++ "ini", fnA)],
          filament_id_to_content := [(toString fA.id, txtA)],
          filename_usage := [(fnA, 1)],
          spools_cache := [(k,
            { id := k, filament_id := some fA.id, filament := some fA,
              archived := some false, spool_weight := none,
              last_used := none })],
          files := [(fnA, txtA)] } = some s₂ ∧
      s₂.deleteLog = [] ∧ alookup s₂.files fnA = some txtA) := by
  have hid2 : fB.id ≠ fA.id := Ne.symm hid
  constructor
  · -- default mode: reparent deletes A's file, then B's record is written
    have hmsg : handle_spool_update_msg cfgDefault tmpl "updated"
        { id := k, filament_id := some fB.id, filament := some fB,
          archived := some false, spool_weight := none, last_used := none }
        { ProcState.initial with
          filament_id_to_filename := [(toString fA.id ++ "-" ++ "ini", fnA)],
          filament_id_to_content := [(toString fA.id, txtA)],
          filename_usage := [(fnA, 1)],
          spools_cache := [(k,
            { id := k, filament_id := some fA.id, filament := some fA,
              archived := some false, spool_weight := none,
              last_used := none })],
          files := [(fnA, txtA)] } =
        (delete_filament cfgDefault tmpl (add_sm2s_to_filament fA "ini" "" none)
          false
          { ProcState.initial with
            filament_id_to_filename := [(toString fA.id ++ "-" ++ "ini", fnA)],
            filament_id_to_content := [(toString fA.id, txtA)],
            filename_usage := [(fnA, 1)],
            spools_cache := [(k,
              { id := k, filament_id := some fB.id, filament := some fB,
                archived := some false, spool_weight := none,
                last_used := none })],
            files := [(fnA, txtA)] }).bind
          (handle_spool_update cfgDefault tmpl
            { id := k, filament_id := some fB.id, filament := some fB,
              archived := some false, spool_weight := none,
              last_used := none }) := by
      simp [handle_spool_update_msg, hk, nlookup, ninsert,
        resolve_spool_filament, hid, cpsTruthy, cfgDefault,
        spoolHasFilamentId, hid2, Spool.isArchived, get_config_suffix,
        foldSV, optFold_singleton, pySplitComma, splitCommaAux,
        ProcState.initial]
    have hdelA := delete_filament_removes cfgDefault tmpl
      (add_sm2s_to_filament fA "ini" "" none)
      { ProcState.initial with
        filament_id_to_filename := [(toString fA.id ++ "-" ++ "ini", fnA)],
        filament_id_to_content := [(toString fA.id, txtA)],
        filename_usage := [(fnA, 1)],
        spools_cache := [(k,
          { id := k, filament_id := some fB.id, filament := some fB,
            archived := some false, spool_weight := none,
            last_used := none })],
        files := [(fnA, txtA)] } fnA 1 txtA
      (by simp [alookup, get_filename_cache_key, cfgDefault,
        add_sm2s_to_filament])
      (by simp [alookup]) (by norm_num) (by simp [alookup])
    have hnoopB := delete_filament_uncached cfgDefault tmpl
      (add_sm2s_to_filament fB "ini" "" none) true
      { ProcState.initial with
        filament_id_to_filename := [(toString fA.id ++ "-" ++ "ini", fnA)],
        filament_id_to_content := [(toString fA.id, txtA)],
        filename_usage := ainsert [(fnA, 1)] fnA (1 - 1),
        spools_cache := [(k,
          { id := k, filament_id := some fB.id, filament := some fB,
            archived := some false, spool_weight := none,
            last_used := none })],
        files := [(fnA, txtA)].filter (fun p => p.1 ≠ fnA),
        deleteLog := [fnA] }
      (by simp [alookup, get_filename_cache_key, cfgDefault,
        add_sm2s_to_filament, hkey])
    have hwB := write_filament_writes cfgDefault tmpl
      (add_sm2s_to_filament fB "ini" "" none)
      { ProcState.initial with
        filament_id_to_filename := [(toString fA.id ++ "-" ++ "ini", fnA)],
        filament_id_to_content := [(toString fA.id, txtA)],
        filename_usage := ainsert [(fnA, 1)] fnA (1 - 1),
        spools_cache := [(k,
          { id := k, filament_id := some fB.id, filament := some fB,
            archived := some false, spool_weight := none,
            last_used := none })],
        files := [(fnA, txtA)].filter (fun p => p.1 ≠ fnA),
        deleteLog := [fnA] } fnB bt hfnB hbtB
      (by
        rintro ⟨hcon, -⟩
        simp [alookup, get_content_cache_key, cfgDefault,
          add_sm2s_to_filament, hckey] at hcon)
    have hhsu : handle_spool_update cfgDefault tmpl
        { id := k, filament_id := some fB.id, filament := some fB,
          archived := some false, spool_weight := none, last_used := none }
        { ProcState.initial with
          filament_id_to_filename := [(toString fA.id ++ "-" ++ "ini", fnA)],
          filament_id_to_content := [(toString fA.id, txtA)],
          filename_usage := ainsert [(fnA, 1)] fnA (1 - 1),
          spools_cache := [(k,
            { id := k, filament_id := some fB.id, filament := some fB,
              archived := some false, spool_weight := none,
              last_used := none })],
          files := [(fnA, txtA)].filter (fun p => p.1 ≠ fnA),
          deleteLog := [fnA] } =
        (delete_filament cfgDefault tmpl
          (add_sm2s_to_filament fB "ini" "" none) true
          { ProcState.initial with
            filament_id_to_filename := [(toString fA.id ++ "-" ++ "ini", fnA)],
            filament_id_to_content := [(toString fA.id, txtA)],
            filename_usage := ainsert [(fnA, 1)] fnA (1 - 1),
            spools_cache := [(k,
              { id := k, filament_id := some fB.id, filament := some fB,
                archived := some false, spool_weight := none,
                last_used := none })],
            files := [(fnA, txtA)].filter (fun p => p.1 ≠ fnA),
            deleteLog := [fnA] }).bind
          (write_filament cfgDefault tmpl
            (add_sm2s_to_filament fB "ini" "" none)) := by
      simp [handle_spool_update, resolve_spool_filament, cfgDefault,
        spoolHasFilamentId, Spool.isArchived, get_config_suffix, foldSV,
        optFold_singleton, pySplitComma, splitCommaAux, ProcState.initial]
    have hflow : handle_spool_update cfgDefault tmpl
        { id := k, filament_id := some fB.id, filament := some fB,
          archived := some false, spool_weight := none, last_used := none }
        { ProcState.initial with
          filament_id_to_filename := [(toString fA.id ++ "-" ++ "ini", fnA)],
          filament_id_to_content := [(toString fA.id, txtA)],
          filename_usage := ainsert [(fnA, 1)] fnA (1 - 1),
          spools_cache := [(k,
            { id := k, filament_id := some fB.id, filament := some fB,
              archived := some false, spool_weight := none,
              last_used := none })],
          files := [(fnA, txtA)].filter (fun p => p.1 ≠ fnA),
          deleteLog := [fnA] } =
        write_filament cfgDefault tmpl (add_sm2s_to_filament fB "ini" "" none)
          { ProcState.initial with
            filament_id_to_filename := [(toString fA.id ++ "-" ++ "ini", fnA)],
            filament_id_to_content := [(toString fA.id, txtA)],
            filename_usage := ainsert [(fnA, 1)] fnA (1 - 1),
            spools_cache := [(k,
              { id := k, filament_id := some fB.id, filament := some fB,
                archived := some false, spool_weight := none,
                last_used := none })],
            files := [(fnA, txtA)].filter (fun p => p.1 ≠ fnA),
            deleteLog := [fnA] } := by
      rw [hhsu, hnoopB, Option.some_bind]
    have e2 : handle_spool_update_msg cfgDefault tmpl "updated"
        { id := k, filament_id := some fB.id, filament := some fB,
          archived := some false, spool_weight := none, last_used := none }
        { ProcState.initial with
          filament_id_to_filename := [(toString fA.id ++ "-" ++ "ini", fnA)],
          filament_id_to_content := [(toString fA.id, txtA)],
          filename_usage := [(fnA, 1)],
          spools_cache := [(k,
            { id := k, filament_id := some fA.id, filament := some fA,
              archived := some false, spool_weight := none,
              last_used := none })],
          files := [(fnA, txtA)] } =
        write_filament cfgDefault tmpl (add_sm2s_to_filament fB "ini" "" none)
          { ProcState.initial with
            filament_id_to_filename := [(toString fA.id ++ "-" ++ "ini", fnA)],
            filament_id_to_content := [(toString fA.id, txtA)],
            filename_usage := ainsert [(fnA, 1)] fnA (1 - 1),
            spools_cache := [(k,
              { id := k, filament_id := some fB.id, filament := some fB,
                archived := some false, spool_weight := none,
                last_used := none })],
            files := [(fnA, txtA)].filter (fun p => p.1 ≠ fnA),
            deleteLog := [fnA] } := by
      rw [hmsg, hdelA, Option.some_bind]
      exact hflow
    exact ⟨_, e2.trans hwB, rfl, rfl,
      by simp [alookup, ainsert, List.filter, hAB, Ne.symm hAB],
      by simp [alookup, ainsert, List.filter, hAB, Ne.symm hAB],
      by simp [usage_incr, alookup, ainsert, List.filter, hAB, Ne.symm hAB],
      by simp [usage_incr, alookup, ainsert, List.filter, hAB, Ne.symm hAB]⟩
  · -- least-left mode: the reparent check is skipped, A's file survives
    have hmsg2 : handle_spool_update_msg cfgLL tmpl "updated"
        { id := k, filament_id := some fB.id, filament := some fB,
          archived := some false, spool_weight := none, last_used := none }
        { ProcState.initial with
          filament_id_to_filename := [(toString fA.id ++ "-" ++ "ini", fnA)],
          filament_id_to_content := [(toString fA.id, txtA)],
          filename_usage := [(fnA, 1)],
          spools_cache := [(k,
            { id := k, filament_id := some fA.id, filament := some fA,
              archived := some false, spool_weight := none,
              last_used := none })],
          files := [(fnA, txtA)] } =
        (delete_filament cfgLL tmpl
          (add_sm2s_to_filament fB "ini" ""
            (some { id := k, filament_id := some fB.id, filament := some fB,
                    archived := some false, spool_weight := none,
                    last_used := none })) true
          { ProcState.initial with
            filament_id_to_filename := [(toString fA.id ++ "-" ++ "ini", fnA)],
            filament_id_to_content := [(toString fA.id, txtA)],
            filename_usage := [(fnA, 1)],
            spools_cache := [(k,
              { id := k, filament_id := some fB.id, filament := some fB,
                archived := some false, spool_weight := none,
                last_used := none })],
            files := [(fnA, txtA)] }).bind
          (write_filament cfgLL tmpl
            (add_sm2s_to_filament fB "ini" ""
              (some { id := k, filament_id := some fB.id, filament := some fB,
                      archived := some false, spool_weight := none,
                      last_used := none }))) := by
      simp [handle_spool_update_msg, handle_spool_update, hk, nlookup, ninsert,
        resolve_spool_filament, cpsTruthy, cfgLL, cfgDefault,
        spoolHasFilamentId, hid2, Spool.isArchived, get_config_suffix,
        select_spool_by_least_left, select_ll_go, foldSV, optFold_singleton,
        pySplitComma, splitCommaAux, ProcState.initial]
    have hnoop2 := delete_filament_uncached cfgLL tmpl
      (add_sm2s_to_filament fB "ini" ""
        (some { id := k, filament_id := some fB.id, filament := some fB,
                archived := some false, spool_weight := none,
                last_used := none })) true
      { ProcState.initial with
        filament_id_to_filename := [(toString fA.id ++ "-" ++ "ini", fnA)],
        filament_id_to_content := [(toString fA.id, txtA)],
        filename_usage := [(fnA, 1)],
        spools_cache := [(k,
          { id := k, filament_id := some fB.id, filament := some fB,
            archived := some false, spool_weight := none,
            last_used := none })],
        files := [(fnA, txtA)] }
      (by simp [alookup, get_filename_cache_key, cfgLL, cfgDefault,
        add_sm2s_to_filament, hkey])
    have hw2 := write_filament_writes cfgLL tmpl
      (add_sm2s_to_filament fB "ini" ""
        (some { id := k, filament_id := some fB.id, filament := some fB,
                archived := some false, spool_weight := none,
                last_used := none }))
      { ProcState.initial with
        filament_id_to_filename := [(toString fA.id ++ "-" ++ "ini", fnA)],
        filament_id_to_content := [(toString fA.id, txtA)],
        filename_usage := [(fnA, 1)],
        spools_cache := [(k,
          { id := k, filament_id := some fB.id, filament := some fB,
            archived := some false, spool_weight := none,
            last_used := none })],
        files := [(fnA, txtA)] } fnB2 bt2 hfnB2 hbtB2
      (by
        rintro ⟨hcon, -⟩
        simp [alookup, get_content_cache_key, cfgLL, cfgDefault,
          add_sm2s_to_filament, hckey] at hcon)
    have e3 : handle_spool_update_msg cfgLL tmpl "updated"
        { id := k, filament_id := some fB.id, filament := some fB,
          archived := some false, spool_weight := none, last_used := none }
        { ProcState.initial with
          filament_id_to_filename := [(toString fA.id ++ "-" ++ "ini", fnA)],
          filament_id_to_content := [(toString fA.id, txtA)],
          filename_usage := [(fnA, 1)],
          spools_cache := [(k,
            { id := k, filament_id := some fA.id, filament := some fA,
              archived := some false, spool_weight := none,
              last_used := none })],
          files := [(fnA, txtA)] } =
        write_filament cfgLL tmpl
          (add_sm2s_to_filament fB "ini" ""
            (some { id := k, filament_id := some fB.id, filament := some fB,
                    archived := some false, spool_weight := none,
                    last_used := none }))
          { ProcState.initial with
            filament_id_to_filename := [(toString fA.id ++ "-" ++ "ini", fnA)],
            filament_id_to_content := [(toString fA.id, txtA)],
            filename_usage := [(fnA, 1)],
            spools_cache := [(k,
              { id := k, filament_id := some fB.id, filament := some fB,
                archived := some false, spool_weight := none,
                last_used := none })],
            files := [(fnA, txtA)] } := by
      rw [hmsg2, hnoop2, Option.some_bind]
    exact ⟨_, e3.trans hw2, rfl, by simp [alookup, ainsert, hAB2, Ne.symm hAB2]⟩

/-- C4 witness: reparenting spool 7 from filament 1 to filament 2 at the
concrete template environment. -/
theorem reparent_moves_output_witness :
    (∃ s', handle_spool_update_msg cfgDefault tmplStd "updated"
        { id := 7, filament_id := some filB.id, filament := some filB,
          archived := some false, spool_weight := none, last_used := none }
        { ProcState.initial with
          filament_id_to_filename :=
            [(toString filA.id ++ "-" ++ "ini", "out/f1.ini")],
          filament_id_to_content := [(toString filA.id, "pla 1")],
          filename_usage := [("out/f1.ini", 1)],
          spools_cache := [(7,
            { id := 7, filament_id := some filA.id, filament := some filA,
              archived := some false, spool_weight := none,
              last_used := none })],
          files := [("out/f1.ini", "pla 1")] } = some s' ∧
      s'.deleteLog = ["out/f1.ini"] ∧ s'.writeLog = ["out/f2.ini"] ∧
      alookup s'.files "out/f1.ini" = none ∧
      alookup s'.files "out/f2.ini" =
        some (plaBodyFn (add_sm2s_to_filament filB "ini" "" none)) ∧
      alookup s'.filename_usage "out/f1.ini" = some 0 ∧
      alookup s'.filename_usage "out/f2.ini" = some 1) ∧
    (∃ s₂, handle_spool_update_msg cfgLL tmplStd "updated"
        { id := 7, filament_id := some filB.id, filament := some filB,
          archived := some false, spool_weight := none, last_used := none }
        { ProcState.initial with
          filament_id_to_filename :=
            [(toString filA.id ++ "-" ++ "ini", "out/f1.ini")],
          filament_id_to_content := [(toString filA.id, "pla 1")],
          filename_usage := [("out/f1.ini", 1)],
          spools_cache := [(7,
            { id := 7, filament_id := some filA.id, filament := some filA,
              archived := some false, spool_weight := none,
              last_used := none })],
          files := [("out/f1.ini", "pla 1")] } = some s₂ ∧
      s₂.deleteLog = [] ∧ alookup s₂.files "out/f1.ini" = some "pla 1") :=
  reparent_moves_output tmplStd filA filB 7 "out/f1.ini" "out/f2.ini"
    "out/f2.ini" "pla 1" plaBodyFn plaBodyFn (by decide) (by decide)
    (by decide) (by decide) rfl rfl (by decide) rfl rfl (by decide)

/-- C6 witness: spools with weights 5 (id 1) and 3 (id 2); the selector's
result satisfies the least-left characterization. -/
theorem select_spool_by_least_left_witness :
    ∃ m, select_spool_by_least_left [spW1, spW2] = some m ∧ m ∈ [spW1, spW2] ∧
      ∀ t ∈ [spW1, spW2], t.id ≠ m.id →
        (wLtB m.spool_weight t.spool_weight = true ∨
         (m.spool_weight = t.spool_weight ∧ m.id < t.id)) :=
  select_spool_by_least_left_spec [spW1, spW2] (by decide) (by decide)
